import Mathlib

/-!
Shallow embedding of `runcmd.py` (RunCmd, version 0.2.4): a bounded-time
command runner that spawns a child process, drains its combined output
through an OS pipe into a caller-supplied sink on a background thread
(`_PipeData`), enforces a wall-clock timeout via a fixed-interval poll loop,
and kills the whole process group on abnormal termination.

Modelling conventions:
  * Machine behaviour that the Python code merely observes (when the child
    exits and with which `Popen.returncode`, when the background pump flags
    an error, whether `subprocess.Popen` raises) is packaged in an
    environment record `RunEnv`; the code's own control flow is translated
    from the source.
  * Time advances in poll ticks: at loop check number `k` the accumulated
    `curr_time` is `k * 0.5` seconds.  `RunCmd.WAIT_INTERVAL` is the float
    `0.5`, and repeated addition of `0.5` is exact in binary floating point,
    so `curr_time` is modelled exactly as a rational.
  * Reads of shared flags (`p.poll()`, `pipe.is_error`) within one loop
    check and the branch that follows it are treated as happening at the
    same tick; sub-tick interleavings are below the granularity of the
    model.
  * `KeyboardInterrupt` (an asynchronous signal into the runner itself) is
    outside the model; the executions modelled are those with no external
    interrupt.
  * The embedding follows the POSIX branch of `run_fd` (the `else` branch of
    `sys.platform == 'win32'`); `_kill` is modelled for both platforms since
    its contract is platform-sensitive.
-/

namespace RunCmdModel

/-- The error info carried by a Python `OSError` as raised in the Python 2
runtime: `errno` rendering plus message, e.g. `[Errno 2] No such file or
directory`.  In Python 2 the `OSError` raised by `subprocess.Popen` for a
failed exec/chdir does not contain the command text (no `filename` is
attached), so the string is a function of the OS failure alone. -/
structure OSErr where
  msg : String
deriving DecidableEq, Repr

/-- Model of `traceback.format_exc()` at the `except (WindowsError, OSError)`
handler: a rendering of the caught OS error together with the (fixed) source
lines of `runcmd.py`; it depends only on the caught error. -/
def format_exc (e : OSErr) : String :=
  "Traceback (most recent call last): OSError: " ++ e.msg

/-- The exception hierarchy of `runcmd.py`.  `RunCmdError` carries one
message (`_err_msg`); `RunCmdInterruptError` additionally stores the command
(`_cmd`).  `RunCmdInternalError` and `RunCmdInvalidInputError` add no
fields. -/
inductive RunCmdErr where
  | internalError (err_msg : String)
  | invalidInput (err_msg : String)
  | interruptErr (cmd : String) (err_msg : String)
deriving DecidableEq, Repr

/-- Constant `RunCmd.WAIT_INTERVAL = 0.5` (seconds). -/
def WAIT_INTERVAL : ℚ := 1/2

/-- Constant `RunCmd.INVALID_INPUT_ERR = -4`. -/
def INVALID_INPUT_ERR : Int := -4

/-- Constant `RunCmd.INTERRUPT_ERR = -3`. -/
def INTERRUPT_ERR : Int := -3

/-- Constant `RunCmd.TIMEOUT_ERR = -2`. -/
def TIMEOUT_ERR : Int := -2

/-- Python's `sys.maxint` on a 64-bit CPython 2 build. -/
def maxint : Int := 2 ^ 63 - 1

/-- The mutable attributes of a `RunCmd` instance: `self.return_code` and
`self.cmd`.  `cmd` is `Option String`: `none` models Python `None`. -/
structure RunCmdState where
  return_code : Int
  cmd : Option String
deriving DecidableEq, Repr

/-- State after `RunCmd.__init__`: `return_code = -1`, `cmd = ''`. -/
def initState : RunCmdState :=
  { return_code := -1, cmd := some "" }

/-- What `_PipeData.__init__` observes about the caller's sink: whether the
probe `dest_file.write('')` raises `IOError`/`ValueError` (a closed or
read-only sink). -/
structure SinkSpec where
  zeroWriteFails : Bool
deriving DecidableEq, Repr

/-- Environment of one `run_fd` execution: everything the machine decides
and the Python code only observes. -/
structure RunEnv where
  /-- Value `some e` iff `subprocess.Popen` raises `OSError`/`WindowsError` `e`
  (bad executable, shell string without `shell=True`, bad `cwd`). -/
  spawnErr : Option OSErr
  /-- Value `some t` iff the child exits and, from poll check number `t` on,
  `p.poll()` returns the child's `returncode`; `none` = child never exits
  within the modelled horizon. -/
  exitTick : Option Nat
  /-- Value of `p.returncode` once `p.poll()` is not `None`.  Popen semantics: a
  normal exit gives the exit status `0..255`; a child terminated by signal
  `N` gives `-N` (POSIX). -/
  childCode : Int
  /-- Value `some t` iff the pump thread sets `is_error`, observed as true from
  poll check number `t` on. -/
  errTick : Option Nat
  /-- Value of `pipe.error_msg` once `pipe.is_error` is true. -/
  pumpErrMsg : String
  /-- The bytes the pump has written into the sink by the time `run_fd`'s
  teardown (`_PipeData.__exit__`) completes; `run` reads them back with
  `f.getvalue()`. -/
  childOutput : String
deriving DecidableEq, Repr

/-- Result of `p.poll()` at poll check number `k`: the child's `returncode` once the
child has exited, else `none`.  (`poll` also reaps the child once it returns
non-`None`.) -/
def pollAt (env : RunEnv) (k : Nat) : Option Int :=
  match env.exitTick with
  | none => none
  | some t => if t ≤ k then some env.childCode else none

/-- Value of `pipe.is_error` as observed at poll check number `k`. -/
def errAt (env : RunEnv) (k : Nat) : Bool :=
  match env.errTick with
  | none => false
  | some t => decide (t ≤ k)

/-- Whether the spawned child is still alive (unreaped) at poll check `k`. -/
def childAliveAt (env : RunEnv) (k : Nat) : Bool :=
  (pollAt env k).isNone

/-- The platforms `runcmd.py` distinguishes (`sys.platform == 'win32'`
versus the POSIX branch). -/
inductive Platform where
  | win32
  | posix
deriving DecidableEq, Repr

/-- The `OSError` raised by `os.kill`/`os.waitpid` on a process group that
no longer exists (`ESRCH`, or `ECHILD` from `waitpid` once the child has
been reaped). -/
def killOSErr : OSErr :=
  { msg := "[Errno 3] No such process" }

/-- Model of `RunCmd._kill(pid)`.  `groupAlive` says whether the target process group
still contains the (unreaped) child.  On win32 the code shells out to
`TASKKILL /PID pid /T /F` and ignores its exit status, so the call completes
normally even for a dead process.  On POSIX it runs
`os.kill(-pid, SIGTERM); os.waitpid(-pid, 0)` with no exception handling:
if the group is gone `os.kill` raises `OSError` (`ESRCH`), and if the child
was already reaped `os.waitpid` raises `OSError` (`ECHILD`) — either way the
call raises. -/
def kill (plat : Platform) (groupAlive : Bool) : Except OSErr Unit :=
  match plat with
  | .win32 => Except.ok ()
  | .posix => if groupAlive then Except.ok () else Except.error killOSErr

/-- Outcome of `_kill` as invoked from `run_fd` (POSIX branch) at poll check `k`: the
group is alive exactly when the child has not yet been reaped by
`p.poll()`. -/
def killAt (env : RunEnv) (k : Nat) : Except OSErr Unit :=
  kill Platform.posix (childAliveAt env k)

/-- The poll loop of `run_fd`:
`while p.poll() is None and curr_time < timeout and not pipe.is_error:
curr_time += WAIT_INTERVAL; sleep(WAIT_INTERVAL)`.
`cond k` is the loop condition as evaluated at check number `k`, where
`curr_time = k * WAIT_INTERVAL`.  The fuel argument is only a
structural-recursion bound; `run_fd` supplies enough fuel that the loop
always stops on its own condition (the time test fails once `curr_time`
reaches the normalized timeout). -/
def pollLoop (cond : Nat → Bool) : Nat → Nat → Nat
  | 0, k => k
  | fuel + 1, k => if cond k then pollLoop cond fuel (k + 1) else k

/-- The time test `curr_time < timeout` of the loop condition at check `k`:
`curr_time = k * 0.5` exactly (repeated float addition of `0.5` is exact),
and for an integer timeout `k * (1/2) < tmo ↔ k < 2 * tmo`
(`timeCmp_lt_iff` below), so the test is represented by the integer
comparison. -/
def timeLt (tmo : Int) (k : Nat) : Bool :=
  decide ((k : Int) < 2 * tmo)

/-- The loop condition of `run_fd` at check `k` for normalized timeout
`tmo`. -/
def loopCond (env : RunEnv) (tmo : Int) (k : Nat) : Bool :=
  (pollAt env k).isNone && timeLt tmo k && !(errAt env k)

/-- The check number at which `run_fd`'s poll loop exits, for normalized
timeout `tmo`; `curr_time` there is `finalTick * WAIT_INTERVAL`. -/
def finalTick (env : RunEnv) (tmo : Int) : Nat :=
  pollLoop (loopCond env tmo) (2 * tmo).toNat 0

/-- Normalization `timeout = sys.maxint if int(timeout) <= 0 else int(timeout)`. -/
def normTimeout (timeout : Int) : Int :=
  if timeout ≤ 0 then maxint else timeout

deriving instance DecidableEq for Except

/-- Result of one (interrupt-free) `run_fd` call: the final attribute state,
the normal/raising outcome, and two instrumentation bits recording whether a
`_PipeData` instance was successfully constructed and whether
`subprocess.Popen` succeeded (a child was spawned). -/
structure RunFdResult where
  state : RunCmdState
  outcome : Except RunCmdErr Unit
  pumpCreated : Bool
  spawned : Bool
deriving DecidableEq, Repr

/-- Model of `RunCmd.run_fd(self, cmd, out_file, timeout, shell, cwd)` (POSIX
branch), with the machine's choices supplied by `env`.  `sink = none` models
a falsy `out_file` (i.e. `None`: file and `StringIO` objects are always
truthy in Python 2).  `shell` and `cwd` only influence the spawn outcome,
which `env.spawnErr` already records. -/
def runFd (st : RunCmdState) (cmd : Option String) (sink : Option SinkSpec)
    (timeout : Int) (shell : Bool) (cwd : Option String) (env : RunEnv) :
    RunFdResult :=
  -- self.cmd = cmd
  let st := { st with cmd := cmd }
  match cmd with
  | none =>
      -- if cmd is None or len(cmd) == 0: self.return_code = 0; return
      { state := { st with return_code := 0 }, outcome := Except.ok ()
        pumpCreated := false, spawned := false }
  | some c =>
      if c = "" then
        { state := { st with return_code := 0 }, outcome := Except.ok ()
          pumpCreated := false, spawned := false }
      else
        match sink with
        | none =>
            -- if not out_file: raise RunCmdInvalidInputError(...)
            { state := st
              outcome := Except.error (RunCmdErr.invalidInput
                "Error: out_file is None; expected file object.")
              pumpCreated := false, spawned := false }
        | some s =>
            -- timeout = sys.maxint if int(timeout) <= 0 else int(timeout)
            let tmo : Int := normTimeout timeout
            -- with _PipeData(out_file) as pipe: (__init__ probes write(''))
            if s.zeroWriteFails then
              { state := st
                outcome := Except.error (RunCmdErr.invalidInput
                  "Error: file object passed in is not writable / closed.")
                pumpCreated := false, spawned := false }
            else
              match env.spawnErr with
              | some e =>
                  -- except (WindowsError, OSError):
                  --   self.return_code = INVALID_INPUT_ERR; raise ...
                  { state := { st with return_code := INVALID_INPUT_ERR }
                    outcome := Except.error (RunCmdErr.invalidInput
                      (format_exc e))
                    pumpCreated := true, spawned := false }
              | none =>
                  let K := finalTick env tmo
                  if errAt env K then
                    -- if pipe.is_error: self._kill(p.pid);
                    --   raise RunCmdInternalError(pipe.error_msg)
                    match killAt env K with
                    | Except.ok _ =>
                        { state := st
                          outcome := Except.error (RunCmdErr.internalError
                            env.pumpErrMsg)
                          pumpCreated := true, spawned := true }
                    | Except.error e =>
                        -- OSError from _kill lands in the same handler
                        { state := { st with return_code := INVALID_INPUT_ERR }
                          outcome := Except.error (RunCmdErr.invalidInput
                            (format_exc e))
                          pumpCreated := true, spawned := true }
                  else if !timeLt tmo K then
                    -- elif curr_time >= timeout:  (K * (1/2) ≥ tmo,
                    -- i.e. the negation of the time test at check K)
                    --   self.return_code = TIMEOUT_ERR; self._kill(p.pid)
                    match killAt env K with
                    | Except.ok _ =>
                        { state := { st with return_code := TIMEOUT_ERR }
                          outcome := Except.ok ()
                          pumpCreated := true, spawned := true }
                    | Except.error e =>
                        { state := { st with return_code := INVALID_INPUT_ERR }
                          outcome := Except.error (RunCmdErr.invalidInput
                            (format_exc e))
                          pumpCreated := true, spawned := true }
                  else
                    -- else: self.return_code = p.returncode
                    { state := { st with return_code := env.childCode }
                      outcome := Except.ok ()
                      pumpCreated := true, spawned := true }

/-- Model of `RunCmd.run(self, cmd, timeout, shell, cwd)`: runs `run_fd` against a
fresh `StringIO.StringIO()` sink (always writable, `zeroWriteFails =
false`), then returns `(self.return_code, f.getvalue())`.  An exception
raised by `run_fd` propagates out of `run` before `buff = f.getvalue()`
executes.  The full `RunFdResult` is returned alongside so the
instrumentation bits stay observable. -/
def run (st : RunCmdState) (cmd : Option String) (timeout : Int)
    (shell : Bool) (cwd : Option String) (env : RunEnv) :
    RunFdResult × Except RunCmdErr (Int × String) :=
  let r := runFd st cmd (some { zeroWriteFails := false }) timeout shell cwd env
  match r.outcome with
  | Except.ok _ =>
      (r, Except.ok (r.state.return_code,
        if r.spawned then env.childOutput else ""))
  | Except.error e => (r, Except.error e)

/-!
The Output Pump `_PipeData` (background drain thread).

`run` (the thread body) is
`while not self.is_stop and not self.is_error: self._read(); sleep(0.2)`
followed by `if not self.is_error: self._read()` and `self._finish_read =
True`.  `_read` pulls `CHUNK_SIZE = 1` bytes at a time from the pipe's read
end and writes each chunk to the sink, catching every exception into
`is_error`/`error_msg`.

Modelling: time advances in `_read` passes.  `sched p` is the list of bytes
the pipe delivers during pass number `p` (OS scheduling abstracted as this
function); `stopAt` is the loop-check number at which the externally-set
`is_stop` flag is first observed true (`_stop` closes the write end and sets
the flag).  A sink whose writes start failing is described by `failFrom =
some n`: the `n`-th `write` call (0-based) and all later ones raise, as a
file closed by another party behaves.  `flush` is modelled as a no-op:
`StringIO.flush` never raises, and a closed file sink already raises at the
byte write preceding the flush. -/

/-- Constant `_PipeData.CHUNK_SIZE = 1`: each successful `readinto` delivers one
byte. -/
def CHUNK_SIZE : Nat := 1

/-- Rendering `str(e)` of the exception a Python 2 file raises when written
after being closed. -/
def closedMsg : String := "I/O operation on closed file"

/-- The `error_msg` that `_read`'s handler builds:
`"{} raised exception {}".format(self.__class__.__name__, str(e))`. -/
def pumpExcMsg (e : String) : String :=
  "_PipeData raised exception " ++ e

/-- Whether the sink rejects the write with (0-based) index `wc`. -/
def sinkClosed (failFrom : Option Nat) (wc : Nat) : Bool :=
  match failFrom with
  | none => false
  | some n => decide (n ≤ wc)

/-- The pump state as the drain thread sees it.  `dest` is the byte
sequence successfully written into the sink; `writeCount` counts successful
`write` calls; `passes` counts `_read` invocations (instrumentation).
`is_stop` is owned by `_stop` and modelled by `stopAt` instead of a state
field. -/
structure PumpState where
  is_error : Bool
  error_msg : Option String
  finish_read : Bool
  dest : List Nat
  writeCount : Nat
  passes : Nat
deriving DecidableEq, Repr

/-- State of `_PipeData` right after `__enter__` (`is_stop = False`,
`_finish_read = False`, no error, nothing written). -/
def pumpInit : PumpState :=
  { is_error := false, error_msg := none, finish_read := false,
    dest := [], writeCount := 0, passes := 0 }

/-- The `try` body of `_PipeData._read` for one pass: write each delivered
byte to the sink in order; the first failing write raises.  Returns the new
sink contents, the new write count, and the exception if one was raised. -/
def readPass (failFrom : Option Nat) :
    List Nat → List Nat → Nat → List Nat × Nat × Option String
  | [], dest, wc => (dest, wc, none)
  | b :: rest, dest, wc =>
      if sinkClosed failFrom wc then (dest, wc, some closedMsg)
      else readPass failFrom rest (dest ++ [b]) (wc + 1)

/-- Model of `_PipeData._read`: run one drain pass, catching any exception into
`is_error`/`error_msg` (`except Exception as e` — nothing propagates to the
caller). -/
def pipeRead (failFrom : Option Nat) (bytes : List Nat) (st : PumpState) :
    PumpState :=
  let r := readPass failFrom bytes st.dest st.writeCount
  match r.2.2 with
  | none =>
      { st with dest := r.1, writeCount := r.2.1, passes := st.passes + 1 }
  | some e =>
      { st with
        dest := r.1
        writeCount := r.2.1
        passes := st.passes + 1
        is_error := true
        error_msg := some (pumpExcMsg e) }

/-- The `is_stop` flag as observed at loop check number `p`: set by `_stop`
and first seen true at check `stopAt`. -/
def stopObserved (stopAt p : Nat) : Bool :=
  decide (stopAt ≤ p)

/-- The drain loop of `_PipeData.run`:
`while not self.is_stop and not self.is_error: self._read(); sleep(0.2)`.
Fuel is a structural-recursion bound; `pumpRun` passes `stopAt + 1`, which
is enough for the loop to stop on its own condition. -/
def pumpLoop (failFrom : Option Nat) (sched : Nat → List Nat)
    (stopAt : Nat) : Nat → Nat → PumpState → PumpState
  | 0, _, st => st
  | fuel + 1, p, st =>
      if stopObserved stopAt p || st.is_error then st
      else pumpLoop failFrom sched stopAt fuel (p + 1)
        (pipeRead failFrom (sched p) st)

/-- Model of `_PipeData.run` in full: the drain loop, then — only if no error was
recorded — one final `_read` pass for the bytes still buffered in the
kernel pipe, then `_finish_read = True`. -/
def pumpRun (failFrom : Option Nat) (sched : Nat → List Nat)
    (stopAt : Nat) : PumpState :=
  let st1 := pumpLoop failFrom sched stopAt (stopAt + 1) 0 pumpInit
  let st2 := if st1.is_error then st1 else pipeRead failFrom (sched st1.passes) st1
  { st2 with finish_read := true }

/-- Total number of bytes the schedule delivers in passes `0 .. j-1`. -/
def cumLen (sched : Nat → List Nat) (j : Nat) : Nat :=
  (((List.range j).map sched).flatten).length

/-!
Concrete execution environments used by the closed counterexample and
witness theorems below.
-/

/-- Environment in which the child exits immediately (poll check 0) with
exit code `0` while the pump has flagged a sink-write error that is also
visible at check 0 (e.g. the sink was closed by another party right as the
child finished). -/
def c1Env : RunEnv :=
  { spawnErr := none, exitTick := some 0, childCode := 0, errTick := some 0,
    pumpErrMsg := "sink write failed", childOutput := "" }

/-- Environment of an untroubled run: spawn succeeds, the child exits at
poll check 0 with code `0`, the pump never errors. -/
def okEnv : RunEnv :=
  { spawnErr := none, exitTick := some 0, childCode := 0, errTick := none,
    pumpErrMsg := "", childOutput := "hello" }

/-- Environment in which the child is terminated by signal 2 (`SIGINT`)
before poll check 0, so `p.poll()` reports `returncode = -2` (Popen's
negative-signal convention); spawn succeeded and the pump never errors. -/
def c2Env : RunEnv :=
  { spawnErr := none, exitTick := some 0, childCode := -2, errTick := none,
    pumpErrMsg := "", childOutput := "" }

/-- Environment in which `subprocess.Popen` fails with `ENOENT` (bad
executable, or a shell command string used with `shell=False`). -/
def c5Env : RunEnv :=
  { spawnErr := some { msg := "[Errno 2] No such file or directory" },
    exitTick := none, childCode := 0, errTick := none, pumpErrMsg := "",
    childOutput := "" }

/-- Environment in which the child never exits within the modelled horizon
and the pump never errors: the run can only end by timeout. -/
def c6Env : RunEnv :=
  { spawnErr := none, exitTick := none, childCode := 0, errTick := none,
    pumpErrMsg := "", childOutput := "some output" }

/-!
Helper lemmas: arithmetic bridge for the half-second time representation,
exit behaviour of the fuelled loops, and branch characterizations of
`runFd` and the pump.
-/

/-- Justification of the integer time representation: for `curr_time =
k * WAIT_INTERVAL` (an exact multiple of one half) and an integer timeout
`t`, the source comparison `curr_time < timeout` is equivalent to the
integer comparison `k < 2 * t` used by `timeLt`. -/
theorem timeCmp_lt_iff (k : Nat) (t : Int) :
    (k : ℚ) * WAIT_INTERVAL < (t : ℚ) ↔ (k : Int) < 2 * t := by
  rw [WAIT_INTERVAL, mul_one_div, div_lt_iff₀ (by norm_num : (0:ℚ) < 2),
    mul_comm (t : ℚ) 2]
  exact_mod_cast Iff.rfl

/-- A fuelled loop whose condition holds throughout its fuel runs to fuel
exhaustion. -/
theorem pollLoop_all_true (cond : Nat → Bool) :
    ∀ fuel k, (∀ j, j < fuel → cond (k + j) = true) →
      pollLoop cond fuel k = k + fuel := by
  intro fuel
  induction fuel with
  | zero => intro k _; rfl
  | succ f ih =>
      intro k h
      have h0 : cond k = true := by simpa using h 0 (Nat.succ_pos f)
      have hrw : pollLoop cond (f + 1) k = pollLoop cond f (k + 1) := by
        simp [pollLoop, h0]
      rw [hrw, ih (k + 1) (fun j hj => by
        have := h (j + 1) (Nat.succ_lt_succ hj)
        simpa [Nat.add_assoc, Nat.add_comm 1 j] using this)]
      omega

/-- When the loop condition fails at fuel exhaustion, `pollLoop` stops at
the first check where the condition fails: the condition is false at the
returned index and true at every earlier check. -/
theorem pollLoop_exit (cond : Nat → Bool) :
    ∀ fuel k, cond (k + fuel) = false →
      cond (pollLoop cond fuel k) = false ∧ k ≤ pollLoop cond fuel k ∧
        ∀ j, k ≤ j → j < pollLoop cond fuel k → cond j = true := by
  intro fuel
  induction fuel with
  | zero =>
      intro k h
      have hrw : pollLoop cond 0 k = k := rfl
      rw [hrw]
      exact ⟨by simpa using h, Nat.le_refl k,
        fun j h1 h2 => absurd h2 (by omega)⟩
  | succ f ih =>
      intro k h
      by_cases h0 : cond k = true
      · have hrw : pollLoop cond (f + 1) k = pollLoop cond f (k + 1) := by
          simp [pollLoop, h0]
        have h' : cond ((k + 1) + f) = false := by
          rw [show (k + 1) + f = k + (f + 1) by omega]; exact h
        obtain ⟨e1, e2, e3⟩ := ih (k + 1) h'
        rw [hrw]
        refine ⟨e1, by omega, ?_⟩
        intro j h1 h2
        rcases Nat.eq_or_lt_of_le h1 with rfl | hlt
        · exact h0
        · exact e3 j hlt h2
      · have h0' : cond k = false := by simpa using h0
        have hrw : pollLoop cond (f + 1) k = k := by simp [pollLoop, h0']
        rw [hrw]
        exact ⟨h0', Nat.le_refl k, fun j h1 h2 => absurd h2 (by omega)⟩

/-- Branch characterization of `runFd`: completed case.  If at the loop's
exit check the pump error flag is down and the elapsed time is still below
the timeout, the loop can only have exited because `p.poll()` turned
non-`None`, and `run_fd` stores the child's `returncode` and returns
normally. -/
theorem runFd_completed (st : RunCmdState) (c : String) (hc : ¬ c = "")
    (timeout : Int) (shell : Bool) (cwd : Option String) (env : RunEnv)
    (hs : env.spawnErr = none)
    (herr : errAt env (finalTick env (normTimeout timeout)) = false)
    (ht : timeLt (normTimeout timeout) (finalTick env (normTimeout timeout)) = true) :
    runFd st (some c) (some ⟨false⟩) timeout shell cwd env =
      { state := { return_code := env.childCode, cmd := some c }
        outcome := Except.ok (), pumpCreated := true, spawned := true } := by
  simp [runFd, hc, hs, herr, ht]

/-- Branch characterization of `runFd`: pump error observed at the exit
check while the child is still alive — the group kill succeeds and
`RunCmdInternalError` is raised, with `return_code` left untouched. -/
theorem runFd_internal_alive (st : RunCmdState) (c : String) (hc : ¬ c = "")
    (timeout : Int) (shell : Bool) (cwd : Option String) (env : RunEnv)
    (hs : env.spawnErr = none)
    (herr : errAt env (finalTick env (normTimeout timeout)) = true)
    (ha : childAliveAt env (finalTick env (normTimeout timeout)) = true) :
    runFd st (some c) (some ⟨false⟩) timeout shell cwd env =
      { state := { return_code := st.return_code, cmd := some c }
        outcome := Except.error (RunCmdErr.internalError env.pumpErrMsg)
        pumpCreated := true, spawned := true } := by
  simp [runFd, hc, hs, herr, killAt, kill, ha]

/-- Branch characterization of `runFd`: pump error observed at the exit
check after the child has already been reaped — `_kill` itself raises
`OSError`, which lands in the `except (WindowsError, OSError)` handler, so
the run ends as InvalidInput with `return_code = -4` instead of
Internal. -/
theorem runFd_internal_dead (st : RunCmdState) (c : String) (hc : ¬ c = "")
    (timeout : Int) (shell : Bool) (cwd : Option String) (env : RunEnv)
    (hs : env.spawnErr = none)
    (herr : errAt env (finalTick env (normTimeout timeout)) = true)
    (ha : childAliveAt env (finalTick env (normTimeout timeout)) = false) :
    runFd st (some c) (some ⟨false⟩) timeout shell cwd env =
      { state := { return_code := INVALID_INPUT_ERR, cmd := some c }
        outcome := Except.error (RunCmdErr.invalidInput (format_exc killOSErr))
        pumpCreated := true, spawned := true } := by
  simp [runFd, hc, hs, herr, killAt, kill, ha]

/-- Branch characterization of `runFd`: timeout reached (no pump error)
with the child still alive — `return_code = TIMEOUT_ERR`, the group is
killed, and `run_fd` returns normally. -/
theorem runFd_timeout_alive (st : RunCmdState) (c : String) (hc : ¬ c = "")
    (timeout : Int) (shell : Bool) (cwd : Option String) (env : RunEnv)
    (hs : env.spawnErr = none)
    (herr : errAt env (finalTick env (normTimeout timeout)) = false)
    (ht : timeLt (normTimeout timeout) (finalTick env (normTimeout timeout)) = false)
    (ha : childAliveAt env (finalTick env (normTimeout timeout)) = true) :
    runFd st (some c) (some ⟨false⟩) timeout shell cwd env =
      { state := { return_code := TIMEOUT_ERR, cmd := some c }
        outcome := Except.ok (), pumpCreated := true, spawned := true } := by
  simp [runFd, hc, hs, herr, ht, killAt, kill, ha]

/-- Branch characterization of `runFd`: timeout reached at the very check
where the child was also seen exited — `return_code` is first set to
`TIMEOUT_ERR`, then the group kill raises `OSError` (the group is gone), so
the handler overwrites `return_code` with `-4` and raises InvalidInput. -/
theorem runFd_timeout_dead (st : RunCmdState) (c : String) (hc : ¬ c = "")
    (timeout : Int) (shell : Bool) (cwd : Option String) (env : RunEnv)
    (hs : env.spawnErr = none)
    (herr : errAt env (finalTick env (normTimeout timeout)) = false)
    (ht : timeLt (normTimeout timeout) (finalTick env (normTimeout timeout)) = false)
    (ha : childAliveAt env (finalTick env (normTimeout timeout)) = false) :
    runFd st (some c) (some ⟨false⟩) timeout shell cwd env =
      { state := { return_code := INVALID_INPUT_ERR, cmd := some c }
        outcome := Except.error (RunCmdErr.invalidInput (format_exc killOSErr))
        pumpCreated := true, spawned := true } := by
  simp [runFd, hc, hs, herr, ht, killAt, kill, ha]

/-- Branch characterization of `runFd`: `subprocess.Popen` raised — the
handler sets `return_code = INVALID_INPUT_ERR` and raises
`RunCmdInvalidInputError(traceback.format_exc())`. -/
theorem runFd_spawn_failure (st : RunCmdState) (c : String) (hc : ¬ c = "")
    (timeout : Int) (shell : Bool) (cwd : Option String) (env : RunEnv)
    (e : OSErr) (hs : env.spawnErr = some e) :
    runFd st (some c) (some ⟨false⟩) timeout shell cwd env =
      { state := { return_code := INVALID_INPUT_ERR, cmd := some c }
        outcome := Except.error (RunCmdErr.invalidInput (format_exc e))
        pumpCreated := true, spawned := false } := by
  simp [runFd, hc, hs]

/-- A drain pass on a sink that never fails writes every delivered byte. -/
theorem readPass_none (bytes : List Nat) :
    ∀ dest wc, readPass none bytes dest wc =
      (dest ++ bytes, wc + bytes.length, none) := by
  induction bytes with
  | nil => intro dest wc; simp [readPass]
  | cons b rest ih =>
      intro dest wc
      simp [readPass, sinkClosed, ih, List.append_assoc]
      omega

/-- A drain pass whose writes all land strictly before the sink's failure
index behaves like a pass on a healthy sink. -/
theorem readPass_ok (n : Nat) (bytes : List Nat) :
    ∀ dest wc, wc + bytes.length ≤ n →
      readPass (some n) bytes dest wc =
        (dest ++ bytes, wc + bytes.length, none) := by
  induction bytes with
  | nil => intro dest wc _; simp [readPass]
  | cons b rest ih =>
      intro dest wc h
      have hcl : sinkClosed (some n) wc = false := by
        simp only [sinkClosed, decide_eq_false_iff_not]
        simp at h
        omega
      have h' : (wc + 1) + rest.length ≤ n := by simp at h; omega
      simp [readPass, hcl, ih _ (wc + 1) h', List.append_assoc]
      omega

/-- A drain pass that reaches the sink's failure index writes exactly the
bytes before it and raises the closed-file exception. -/
theorem readPass_fail (n : Nat) (bytes : List Nat) :
    ∀ dest wc, wc ≤ n → n < wc + bytes.length →
      readPass (some n) bytes dest wc =
        (dest ++ bytes.take (n - wc), n, some closedMsg) := by
  induction bytes with
  | nil => intro dest wc h1 h2; simp at h2; omega
  | cons b rest ih =>
      intro dest wc h1 h2
      by_cases hw : n ≤ wc
      · have hwc : wc = n := by omega
        subst hwc
        have hcl : sinkClosed (some wc) wc = true := by simp [sinkClosed]
        simp [readPass, hcl]
      · have hcl : sinkClosed (some n) wc = false := by
          simp [sinkClosed]; omega
        have h2' : n < (wc + 1) + rest.length := by simp at h2; omega
        rw [readPass]
        rw [hcl]
        simp only [Bool.false_eq_true, if_false]
        rw [ih _ (wc + 1) (by omega) h2']
        have htake : (n - wc) = (n - (wc + 1)) + 1 := by omega
        rw [htake, List.take_succ_cons]
        simp [List.append_assoc]

/-- Effect of `_read` on the pump state for a healthy sink. -/
theorem pipeRead_none (bytes : List Nat) (st : PumpState) :
    pipeRead none bytes st =
      { st with dest := st.dest ++ bytes
                writeCount := st.writeCount + bytes.length
                passes := st.passes + 1 } := by
  simp [pipeRead, readPass_none]

/-- Effect of `_read` when the whole pass lands before the sink's failure
index. -/
theorem pipeRead_ok (n : Nat) (bytes : List Nat) (st : PumpState)
    (h : st.writeCount + bytes.length ≤ n) :
    pipeRead (some n) bytes st =
      { st with dest := st.dest ++ bytes
                writeCount := st.writeCount + bytes.length
                passes := st.passes + 1 } := by
  simp [pipeRead, readPass_ok n bytes st.dest st.writeCount h]

/-- Effect of `_read` when the sink starts failing inside this pass: the
error flag and message are set; nothing propagates. -/
theorem pipeRead_fail (n : Nat) (bytes : List Nat) (st : PumpState)
    (h1 : st.writeCount ≤ n) (h2 : n < st.writeCount + bytes.length) :
    pipeRead (some n) bytes st =
      { st with dest := st.dest ++ bytes.take (n - st.writeCount)
                writeCount := n
                passes := st.passes + 1
                is_error := true
                error_msg := some (pumpExcMsg closedMsg) } := by
  simp [pipeRead, readPass_fail n bytes st.dest st.writeCount h1 h2]

/-- The drain loop stops immediately once the error flag is up. -/
theorem pumpLoop_err (failFrom : Option Nat) (sched : Nat → List Nat)
    (stopAt : Nat) (fuel p : Nat) (st : PumpState) (h : st.is_error = true) :
    pumpLoop failFrom sched stopAt fuel p st = st := by
  cases fuel with
  | zero => rfl
  | succ f => simp [pumpLoop, h]

/-- Full description of the drain loop over a healthy sink: it performs one
`_read` pass per check until the stop flag is observed, accumulating every
scheduled byte in order. -/
theorem pumpLoop_none (sched : Nat → List Nat) (stopAt : Nat) :
    ∀ fuel p st, st.is_error = false → stopAt ≤ p + fuel →
      pumpLoop none sched stopAt fuel p st =
        { st with
          dest := st.dest ++ ((List.range' p (stopAt - p)).map sched).flatten
          writeCount := st.writeCount +
            (((List.range' p (stopAt - p)).map sched).flatten).length
          passes := st.passes + (stopAt - p) } := by
  intro fuel
  induction fuel with
  | zero =>
      intro p st he hs
      have h0 : stopAt - p = 0 := by omega
      simp [pumpLoop, h0]
  | succ f ih =>
      intro p st he hs
      by_cases hp : stopAt ≤ p
      · have hobs : stopObserved stopAt p = true := by simp [stopObserved, hp]
        have h0 : stopAt - p = 0 := by omega
        simp [pumpLoop, hobs, h0]
      · have hobs : stopObserved stopAt p = false := by
          simp [stopObserved]; omega
        have hstep : pumpLoop none sched stopAt (f + 1) p st =
            pumpLoop none sched stopAt f (p + 1) (pipeRead none (sched p) st) := by
          simp [pumpLoop, hobs, he]
        have he' : (pipeRead none (sched p) st).is_error = false := by
          rw [pipeRead_none]; exact he
        rw [hstep, ih (p + 1) _ he' (by omega), pipeRead_none]
        have hr : stopAt - p = (stopAt - (p + 1)) + 1 := by omega
        rw [hr, List.range'_succ]
        simp [List.append_assoc]
        omega

/-- Full description of the drain loop over a sink that starts failing at
write index `n`, where the failing write falls inside loop pass `p + d`:
the loop performs the `d` earlier passes in full, sets the error flag and
message during pass `p + d`, and stops. -/
theorem pumpLoop_fail (sched : Nat → List Nat) (stopAt n : Nat) :
    ∀ d fuel p st, st.is_error = false →
      st.writeCount + (((List.range' p d).map sched).flatten).length ≤ n →
      n < st.writeCount + (((List.range' p (d + 1)).map sched).flatten).length →
      p + d < stopAt → d + 1 ≤ fuel →
      pumpLoop (some n) sched stopAt fuel p st =
        { st with
          dest := st.dest ++
            ((((List.range' p (d + 1)).map sched).flatten).take (n - st.writeCount))
          writeCount := n
          passes := st.passes + (d + 1)
          is_error := true
          error_msg := some (pumpExcMsg closedMsg) } := by
  intro d
  induction d with
  | zero =>
      intro fuel p st he h1 h2 hstop hfuel
      have hrw0 : List.range' p (0 + 1) = [p] := rfl
      rw [hrw0] at h2 ⊢
      simp only [List.map_cons, List.map_nil, List.flatten_cons,
        List.flatten_nil, List.append_nil] at h2 ⊢
      have hrw1 : List.range' p 0 = [] := rfl
      rw [hrw1] at h1
      have h1' : st.writeCount ≤ n := by simpa using h1
      obtain ⟨f, rfl⟩ : ∃ f, fuel = f + 1 := ⟨fuel - 1, by omega⟩
      have hobs : stopObserved stopAt p = false := by
        simp [stopObserved]; omega
      have hstep : pumpLoop (some n) sched stopAt (f + 1) p st =
          pumpLoop (some n) sched stopAt f (p + 1) (pipeRead (some n) (sched p) st) := by
        simp [pumpLoop, hobs, he]
      rw [hstep, pipeRead_fail n (sched p) st h1' h2,
        pumpLoop_err _ _ _ _ _ _ rfl]
  | succ d ih =>
      intro fuel p st he h1 h2 hstop hfuel
      obtain ⟨f, rfl⟩ : ∃ f, fuel = f + 1 := ⟨fuel - 1, by omega⟩
      have hobs : stopObserved stopAt p = false := by
        simp [stopObserved]; omega
      have hlenp : st.writeCount + (sched p).length ≤ n := by
        rw [List.range'_succ] at h1
        simp at h1
        omega
      have hstep : pumpLoop (some n) sched stopAt (f + 1) p st =
          pumpLoop (some n) sched stopAt f (p + 1) (pipeRead (some n) (sched p) st) := by
        simp [pumpLoop, hobs, he]
      rw [hstep, pipeRead_ok n (sched p) st hlenp]
      rw [ih f (p + 1) _ (by simpa using he) ?h1 ?h2 (by omega) (by omega)]
      case h1 =>
        rw [List.range'_succ] at h1
        simp at h1 ⊢
        omega
      case h2 =>
        rw [show (d + 1) + 1 = (d + 2) from rfl] at h2
        rw [List.range'_succ] at h2
        simp at h2 ⊢
        omega
      have hr : (d + 1) + 1 = (d + 1) + 1 := rfl
      rw [List.range'_succ p (d + 1) 1, List.map_cons, List.flatten_cons,
        List.take_append_eq_append_take,
        List.take_of_length_le (by omega : (sched p).length ≤ n - st.writeCount)]
      simp [PumpState.mk.injEq, List.append_assoc]
      constructor
      · congr 1
        omega
      · omega

/-!
Claim theorems.
-/

/-- C1, counterexample.  The claim asserts that the three terminal
conditions are resolved with child-exit first: "if the child has exited the
status is the child's real exit code (COMPLETED)".  In this environment the
child has exited at the loop's exit check (poll check 0, `p.poll() = 0`)
while the pump error flag is also up; the claim predicts COMPLETED with
status 0, but the code checks `pipe.is_error` first, calls `_kill` on the
already-reaped process group, and ends as InvalidInput with status `-4`. -/
theorem c1_counterexample :
    (runFd initState (some "producer") (some ⟨false⟩) 5 true none c1Env =
      { state := { return_code := INVALID_INPUT_ERR, cmd := some "producer" }
        outcome := Except.error (RunCmdErr.invalidInput (format_exc killOSErr))
        pumpCreated := true, spawned := true }) ∧
    pollAt c1Env 0 = some 0 ∧ c1Env.childCode = 0 := by
  decide

/-- C1 (amended): after the poll loop exits, the terminal conditions are
resolved in the source's `if`/`elif`/`else` order — pump error first, then
timeout, and only otherwise COMPLETED with the child's real exit code.  In
the pump-error branch the group is killed and Internal is raised when the
child is still alive; when the child has already been reaped, the group
kill itself raises `OSError` and the run is reported as InvalidInput with
status `-4`.  In the timeout branch the status is Timeout when the child is
still alive (with the same InvalidInput/`-4` degradation when the kill
fails because the child was seen exited at the same check). -/
theorem c1_branch_priority_amended (st : RunCmdState) (c : String)
    (hc : ¬ c = "") (timeout : Int) (shell : Bool) (cwd : Option String)
    (env : RunEnv) (hs : env.spawnErr = none) :
    (errAt env (finalTick env (normTimeout timeout)) = true →
      runFd st (some c) (some ⟨false⟩) timeout shell cwd env =
        (if childAliveAt env (finalTick env (normTimeout timeout)) then
          { state := { return_code := st.return_code, cmd := some c }
            outcome := Except.error (RunCmdErr.internalError env.pumpErrMsg)
            pumpCreated := true, spawned := true }
        else
          { state := { return_code := INVALID_INPUT_ERR, cmd := some c }
            outcome := Except.error (RunCmdErr.invalidInput (format_exc killOSErr))
            pumpCreated := true, spawned := true })) ∧
    (errAt env (finalTick env (normTimeout timeout)) = false →
      timeLt (normTimeout timeout) (finalTick env (normTimeout timeout)) = false →
      runFd st (some c) (some ⟨false⟩) timeout shell cwd env =
        (if childAliveAt env (finalTick env (normTimeout timeout)) then
          { state := { return_code := TIMEOUT_ERR, cmd := some c }
            outcome := Except.ok (), pumpCreated := true, spawned := true }
        else
          { state := { return_code := INVALID_INPUT_ERR, cmd := some c }
            outcome := Except.error (RunCmdErr.invalidInput (format_exc killOSErr))
            pumpCreated := true, spawned := true })) ∧
    (errAt env (finalTick env (normTimeout timeout)) = false →
      timeLt (normTimeout timeout) (finalTick env (normTimeout timeout)) = true →
      runFd st (some c) (some ⟨false⟩) timeout shell cwd env =
        { state := { return_code := env.childCode, cmd := some c }
          outcome := Except.ok (), pumpCreated := true, spawned := true }) := by
  refine ⟨?_, ?_, ?_⟩
  · intro herr
    cases ha : childAliveAt env (finalTick env (normTimeout timeout)) with
    | true => rw [runFd_internal_alive st c hc timeout shell cwd env hs herr ha]; simp
    | false => rw [runFd_internal_dead st c hc timeout shell cwd env hs herr ha]; simp
  · intro herr ht
    cases ha : childAliveAt env (finalTick env (normTimeout timeout)) with
    | true => rw [runFd_timeout_alive st c hc timeout shell cwd env hs herr ht ha]; simp
    | false => rw [runFd_timeout_dead st c hc timeout shell cwd env hs herr ht ha]; simp
  · intro herr ht
    exact runFd_completed st c hc timeout shell cwd env hs herr ht

/-- Witness for C1 (amended), at the untroubled environment `okEnv` with
command `"echo hello"` and timeout 5: the completed branch applies and
yields the child's exit code. -/
theorem c1_branch_priority_amended_witness :
    (¬ "echo hello" = "") ∧ okEnv.spawnErr = none ∧
    (errAt okEnv (finalTick okEnv (normTimeout 5)) = false →
      timeLt (normTimeout 5) (finalTick okEnv (normTimeout 5)) = true →
      runFd initState (some "echo hello") (some ⟨false⟩) 5 true none okEnv =
        { state := { return_code := okEnv.childCode, cmd := some "echo hello" }
          outcome := Except.ok (), pumpCreated := true, spawned := true }) :=
  ⟨by decide, rfl,
    (c1_branch_priority_amended initState "echo hello" (by decide) 5 true none
      okEnv rfl).2.2⟩

/-- C2, counterexample.  The claim asserts that a COMPLETED status is the
child's real exit code and is `≥ 0`, never coinciding with the sentinels.
The completed branch stores `p.returncode` verbatim, and Popen reports a
child terminated by signal `N` as `returncode = -N`; with the child killed
by `SIGINT` (signal 2) the COMPLETED status is `-2`, which is exactly the
`TIMED_OUT` sentinel.  The first two conjuncts show the run really ends in
the completed branch (no pump error, time below timeout at the exit
check). -/
theorem c2_counterexample :
    errAt c2Env (finalTick c2Env (normTimeout 5)) = false ∧
    timeLt (normTimeout 5) (finalTick c2Env (normTimeout 5)) = true ∧
    (runFd initState (some "./sig-child") (some ⟨false⟩) 5 false none c2Env).outcome
        = Except.ok () ∧
    (runFd initState (some "./sig-child") (some ⟨false⟩) 5 false none c2Env).state.return_code
        = c2Env.childCode ∧
    c2Env.childCode = TIMEOUT_ERR ∧ ¬ (0 ≤ c2Env.childCode) := by
  decide

/-- C2 (amended): in every execution that ends in the COMPLETED branch the
returned status equals the child's `Popen.returncode`; whenever the child
exited normally (`returncode ≥ 0`) the status is `≥ 0` and distinct from
the sentinels `-2` (TIMED_OUT), `-3` (INTERRUPTED) and `-4`
(INVALID_INPUT).  A signal-terminated child has a negative `returncode`
that may coincide with a sentinel. -/
theorem c2_completed_status_amended (st : RunCmdState) (c : String)
    (hc : ¬ c = "") (timeout : Int) (shell : Bool) (cwd : Option String)
    (env : RunEnv) (hs : env.spawnErr = none)
    (herr : errAt env (finalTick env (normTimeout timeout)) = false)
    (ht : timeLt (normTimeout timeout) (finalTick env (normTimeout timeout)) = true) :
    (runFd st (some c) (some ⟨false⟩) timeout shell cwd env).state.return_code
        = env.childCode ∧
    (runFd st (some c) (some ⟨false⟩) timeout shell cwd env).outcome
        = Except.ok () ∧
    (0 ≤ env.childCode →
      0 ≤ (runFd st (some c) (some ⟨false⟩) timeout shell cwd env).state.return_code ∧
      (runFd st (some c) (some ⟨false⟩) timeout shell cwd env).state.return_code ≠ TIMEOUT_ERR ∧
      (runFd st (some c) (some ⟨false⟩) timeout shell cwd env).state.return_code ≠ INTERRUPT_ERR ∧
      (runFd st (some c) (some ⟨false⟩) timeout shell cwd env).state.return_code ≠ INVALID_INPUT_ERR) := by
  rw [runFd_completed st c hc timeout shell cwd env hs herr ht]
  refine ⟨rfl, rfl, ?_⟩
  intro h0
  refine ⟨h0, ?_, ?_, ?_⟩ <;> simp [TIMEOUT_ERR, INTERRUPT_ERR, INVALID_INPUT_ERR] <;> omega

/-- Witness for C2 (amended), at `okEnv` (child exits promptly with code
0): the COMPLETED status equals the child's exit code. -/
theorem c2_completed_status_amended_witness :
    (¬ "true" = "") ∧ okEnv.spawnErr = none ∧
    errAt okEnv (finalTick okEnv (normTimeout 5)) = false ∧
    timeLt (normTimeout 5) (finalTick okEnv (normTimeout 5)) = true ∧
    (runFd initState (some "true") (some ⟨false⟩) 5 false none okEnv).state.return_code
      = okEnv.childCode :=
  ⟨by decide, rfl, by decide, by decide,
    (c2_completed_status_amended initState "true" (by decide) 5 false none okEnv
      rfl (by decide) (by decide)).1⟩

/-- C3, counterexample.  The claim asserts `_kill` is idempotent: invoking
it on an already-dead process group is a no-op that completes normally.  On
POSIX, `_kill` runs `os.kill(-pid, SIGTERM)` with no exception handling,
and on a dead group `os.kill` raises `OSError` (`ESRCH`) — an error, not a
no-op.  (On a live group it completes normally, second conjunct.) -/
theorem c3_counterexample :
    kill Platform.posix false = Except.error killOSErr ∧
    kill Platform.posix true = Except.ok () := by
  decide

/-- C3 (amended): the win32 branch of `_kill` (`TASKKILL`, exit status
ignored) is idempotent — it completes normally whether or not the target is
alive; the POSIX branch completes normally only on a live group and raises
`OSError` on an already-dead one. -/
theorem c3_kill_amended :
    kill Platform.win32 true = Except.ok () ∧
    kill Platform.win32 false = Except.ok () ∧
    kill Platform.posix true = Except.ok () ∧
    kill Platform.posix false = Except.error killOSErr := by
  decide

/-- C4: for every runner state, timeout, shell flag, working directory and
environment, `run` with a `None` command or an empty command returns
status 0 with empty output, and neither spawns a child (`spawned = false`)
nor constructs a `_PipeData` pump (`pumpCreated = false`). -/
theorem c4_empty_command_noop (st : RunCmdState) (timeout : Int) (shell : Bool)
    (cwd : Option String) (env : RunEnv) :
    run st none timeout shell cwd env =
      ({ state := { return_code := 0, cmd := none }, outcome := Except.ok ()
         pumpCreated := false, spawned := false }, Except.ok (0, "")) ∧
    run st (some "") timeout shell cwd env =
      ({ state := { return_code := 0, cmd := some "" }, outcome := Except.ok ()
         pumpCreated := false, spawned := false }, Except.ok (0, "")) :=
  ⟨rfl, rfl⟩

/-- C5, counterexample.  The claim asserts the InvalidInput error raised on
a spawn failure carries the original command text.  The error is
`RunCmdInvalidInputError(traceback.format_exc())`, and in Python 2 neither
the traceback's fixed source lines nor the `OSError` raised by `Popen`
contain the command (the exception class, unlike `RunCmdInterruptError`,
has no command field), so two different commands failing with the same OS
error produce identical error objects — the error cannot carry the command
text. -/
theorem c5_counterexample :
    (runFd initState (some "frobnicate") (some ⟨false⟩) 5 false none c5Env).outcome =
      (runFd initState (some "calculate") (some ⟨false⟩) 5 false none c5Env).outcome ∧
    ("frobnicate" : String) ≠ "calculate" := by
  decide

/-- C5 (amended): every spawn failure is caught synchronously (no child is
spawned) and reported as an InvalidInput error carrying a diagnostic trace
of the OS error, with `return_code` set to `-4`; the original command text
is retained in the runner's `cmd` attribute but is not part of the error
object. -/
theorem c5_spawn_failure_amended (st : RunCmdState) (c : String) (hc : ¬ c = "")
    (timeout : Int) (shell : Bool) (cwd : Option String) (env : RunEnv)
    (e : OSErr) (hs : env.spawnErr = some e) :
    runFd st (some c) (some ⟨false⟩) timeout shell cwd env =
      { state := { return_code := INVALID_INPUT_ERR, cmd := some c }
        outcome := Except.error (RunCmdErr.invalidInput (format_exc e))
        pumpCreated := true, spawned := false } :=
  runFd_spawn_failure st c hc timeout shell cwd env e hs

/-- Witness for C5 (amended), at the `ENOENT` spawn-failure environment. -/
theorem c5_spawn_failure_amended_witness :
    (¬ "frobnicate" = "") ∧
    c5Env.spawnErr = some { msg := "[Errno 2] No such file or directory" } ∧
    runFd initState (some "frobnicate") (some ⟨false⟩) 7 false none c5Env =
      { state := { return_code := INVALID_INPUT_ERR, cmd := some "frobnicate" }
        outcome := Except.error (RunCmdErr.invalidInput
          (format_exc { msg := "[Errno 2] No such file or directory" }))
        pumpCreated := true, spawned := false } :=
  ⟨by decide, rfl,
    c5_spawn_failure_amended initState "frobnicate" (by decide) 7 false none c5Env
      { msg := "[Errno 2] No such file or directory" } rfl⟩

/-- C6: timeout is not an error.  For every execution with a positive
timeout in which the pump never errors and the child does not exit by the
time the timeout is reached, `run_fd` sets `return_code = TIMEOUT_ERR`
(`-2`) and returns normally — no exception reaches the caller. -/
theorem c6_timeout_normal_return (st : RunCmdState) (c : String) (hc : ¬ c = "")
    (timeout : Int) (ht : 0 < timeout) (shell : Bool) (cwd : Option String)
    (env : RunEnv) (hs : env.spawnErr = none) (he : env.errTick = none)
    (hx : ∀ T, env.exitTick = some T → (2 * timeout).toNat < T) :
    runFd st (some c) (some ⟨false⟩) timeout shell cwd env =
      { state := { return_code := TIMEOUT_ERR, cmd := some c }
        outcome := Except.ok (), pumpCreated := true, spawned := true } := by
  have hnt : normTimeout timeout = timeout := by
    simp only [normTimeout, ite_eq_right_iff]
    omega
  have hpoll : ∀ j, j ≤ (2 * timeout).toNat → pollAt env j = none := by
    intro j hj
    cases hxe : env.exitTick with
    | none => simp [pollAt, hxe]
    | some T =>
        have hT := hx T hxe
        simp only [pollAt, hxe, ite_eq_right_iff]
        intro hTj
        omega
  have hcond : ∀ j, j < (2 * timeout).toNat → loopCond env timeout j = true := by
    intro j hj
    have h1 : pollAt env j = none := hpoll j (Nat.le_of_lt hj)
    have h2 : timeLt timeout j = true := by
      simp only [timeLt, decide_eq_true_eq]
      omega
    simp [loopCond, h1, h2, errAt, he]
  have hK : finalTick env timeout = (2 * timeout).toNat := by
    have h := pollLoop_all_true (loopCond env timeout) ((2 * timeout).toNat) 0
      (fun j hj => by simpa using hcond j hj)
    simpa [finalTick] using h
  have herr : errAt env (finalTick env (normTimeout timeout)) = false := by
    simp [errAt, he]
  have htl : timeLt (normTimeout timeout) (finalTick env (normTimeout timeout)) = false := by
    rw [hnt, hK]
    simp only [timeLt, decide_eq_false_iff_not]
    omega
  have ha : childAliveAt env (finalTick env (normTimeout timeout)) = true := by
    rw [hnt, hK]
    simp [childAliveAt, hpoll ((2 * timeout).toNat) (Nat.le_refl _)]
  exact runFd_timeout_alive st c hc timeout shell cwd env hs herr htl ha

/-- Witness for C6: `sleep 10` with timeout 1 and a child that never exits
ends with status `-2` and a normal return. -/
theorem c6_timeout_normal_return_witness :
    (¬ "sleep 10" = "") ∧ (0 : Int) < 1 ∧ c6Env.spawnErr = none ∧
    c6Env.errTick = none ∧
    runFd initState (some "sleep 10") (some ⟨false⟩) 1 true none c6Env =
      { state := { return_code := TIMEOUT_ERR, cmd := some "sleep 10" }
        outcome := Except.ok (), pumpCreated := true, spawned := true } :=
  ⟨by decide, by decide, rfl, rfl,
    c6_timeout_normal_return initState "sleep 10" (by decide) 1 (by decide) true none
      c6Env rfl rfl (fun T h => nomatch h)⟩

/-- C7: for every started pump over a sink that accepts its writes, the
drain loop performs one `_read` pass per check until the stop signal is
observed at check `stopAt`, then performs exactly one more drain pass, and
only then marks itself finished: `stopAt + 1` passes in total, every
scheduled byte delivered to the sink in order, no error. -/
theorem c7_pump_drain_protocol (sched : Nat → List Nat) (stopAt : Nat) :
    pumpRun none sched stopAt =
      { is_error := false, error_msg := none, finish_read := true
        dest := ((List.range (stopAt + 1)).map sched).flatten
        writeCount := (((List.range (stopAt + 1)).map sched).flatten).length
        passes := stopAt + 1 } := by
  have h1 := pumpLoop_none sched stopAt (stopAt + 1) 0 pumpInit rfl (by omega)
  simp only [pumpRun, h1]
  simp only [pumpInit, Nat.sub_zero, Nat.zero_add, List.nil_append]
  rw [pipeRead_none]
  have hsplit : List.range (stopAt + 1) = List.range' 0 stopAt ++ [stopAt] := by
    rw [List.range_eq_range']
    simpa using List.range'_1_concat 0 stopAt
  rw [hsplit]
  simp [List.length_append]

/-- C8: when the sink starts rejecting writes at write index `n` and that
write falls inside loop pass `j` (before the stop signal), the pump sets
its error flag and error message, terminates the drain loop right after
pass `j` (no further passes, the post-stop drain pass included), marks
itself finished, and returns normally — the failure is observable only
through the `is_error`/`error_msg` fields, since `_read` traps every
exception. -/
theorem c8_sink_failure_sets_flag (sched : Nat → List Nat) (stopAt n j : Nat)
    (h1 : cumLen sched j ≤ n) (h2 : n < cumLen sched (j + 1)) (hj : j < stopAt) :
    pumpRun (some n) sched stopAt =
      { is_error := true
        error_msg := some (pumpExcMsg closedMsg)
        finish_read := true
        dest := (((List.range (j + 1)).map sched).flatten).take n
        writeCount := n
        passes := j + 1 } := by
  have h1' : pumpInit.writeCount +
      (((List.range' 0 j).map sched).flatten).length ≤ n := by
    simpa [pumpInit, ← List.range_eq_range', cumLen] using h1
  have h2' : n < pumpInit.writeCount +
      (((List.range' 0 (j + 1)).map sched).flatten).length := by
    simpa [pumpInit, ← List.range_eq_range', cumLen] using h2
  have hmain := pumpLoop_fail sched stopAt n j (stopAt + 1) 0 pumpInit rfl h1'
    h2' (by omega) (by omega)
  simp only [pumpRun, hmain]
  simp only [pumpInit, Nat.sub_zero, Nat.zero_add, List.nil_append,
    ← List.range_eq_range']
  rfl

/-- Witness for C8: one byte per pass, sink closed from write index 2,
stop at check 5 — the pump errors during pass 2 and stops after 3 passes. -/
theorem c8_sink_failure_sets_flag_witness :
    cumLen (fun _ => [7]) 2 ≤ 2 ∧ 2 < cumLen (fun _ => [7]) (2 + 1) ∧ 2 < 5 ∧
    pumpRun (some 2) (fun _ => [7]) 5 =
      { is_error := true
        error_msg := some (pumpExcMsg closedMsg)
        finish_read := true
        dest := (((List.range (2 + 1)).map (fun _ => [7])).flatten).take 2
        writeCount := 2
        passes := 2 + 1 } :=
  ⟨by decide, by decide, by decide,
    c8_sink_failure_sets_flag (fun _ => [7]) 5 2 2 (by decide) (by decide)
      (by decide)⟩

/-- C9: the empty-command check precedes sink validation.  For every sink
value — including `None` and a sink that rejects the zero-length probe
write — `run_fd` with a `None` or empty command returns normally with
status 0 and raises no InvalidInput error. -/
theorem c9_empty_before_sink_validation (st : RunCmdState)
    (sink : Option SinkSpec) (timeout : Int) (shell : Bool)
    (cwd : Option String) (env : RunEnv) :
    (runFd st none sink timeout shell cwd env).outcome = Except.ok () ∧
    (runFd st none sink timeout shell cwd env).state.return_code = 0 ∧
    (runFd st (some "") sink timeout shell cwd env).outcome = Except.ok () ∧
    (runFd st (some "") sink timeout shell cwd env).state.return_code = 0 :=
  ⟨rfl, rfl, rfl, rfl⟩

/-- C10: when `run_fd` raises InvalidInput during pre-spawn sink validation
— a `None` sink, or a sink whose zero-length probe write fails in
`_PipeData.__init__` — `return_code` is left at its prior value (initially
`-1`) rather than being set to `-4`; only a spawn-time failure sets
`return_code = INVALID_INPUT_ERR`. -/
theorem c10_prevalidation_preserves_return_code (st : RunCmdState) (c : String)
    (hc : ¬ c = "") (timeout : Int) (shell : Bool) (cwd : Option String)
    (env : RunEnv) :
    ((runFd st (some c) none timeout shell cwd env).state.return_code
        = st.return_code ∧
     (runFd st (some c) none timeout shell cwd env).outcome =
       Except.error (RunCmdErr.invalidInput
         "Error: out_file is None; expected file object.")) ∧
    ((runFd st (some c) (some ⟨true⟩) timeout shell cwd env).state.return_code
        = st.return_code ∧
     (runFd st (some c) (some ⟨true⟩) timeout shell cwd env).outcome =
       Except.error (RunCmdErr.invalidInput
         "Error: file object passed in is not writable / closed.")) ∧
    (∀ e, env.spawnErr = some e →
      (runFd st (some c) (some ⟨false⟩) timeout shell cwd env).state.return_code
        = INVALID_INPUT_ERR) := by
  refine ⟨⟨?_, ?_⟩, ⟨?_, ?_⟩, ?_⟩
  · simp [runFd, hc]
  · simp [runFd, hc]
  · simp [runFd, hc]
  · simp [runFd, hc]
  · intro e he
    rw [runFd_spawn_failure st c hc timeout shell cwd env e he]

/-- Witness for C10: from the freshly-constructed state (`return_code =
-1`), both pre-spawn validation failures leave `return_code` at `-1`. -/
theorem c10_prevalidation_preserves_return_code_witness :
    (¬ "echo hi" = "") ∧
    (runFd initState (some "echo hi") none 5 true none okEnv).state.return_code
      = initState.return_code ∧
    (runFd initState (some "echo hi") (some ⟨true⟩) 5 true none okEnv).state.return_code
      = initState.return_code :=
  ⟨by decide,
    (c10_prevalidation_preserves_return_code initState "echo hi" (by decide) 5
      true none okEnv).1.1,
    (c10_prevalidation_preserves_return_code initState "echo hi" (by decide) 5
      true none okEnv).2.1.1⟩

end RunCmdModel
